import Mathlib

/-!
Verification of the push-notification integration layer
(`FCMService`, notification formatters, validators).

The TypeScript sources are embedded shallowly:

* JavaScript objects with optional fields become structures with `Option`
  fields; a field whose value would be `undefined` is `none`.
* The truthiness coercions of JavaScript (`x && { x }`, `x || d`) are made
  explicit: an absent value *or the empty string* counts as falsy.
* The Firebase messaging collaborator (`this.messaging`) becomes a record of
  pure functions `send` / `sendEach` returning `Except RawError _`; a thrown
  exception is the `Except.error` case.
* Every service operation additionally returns the list of collaborator
  calls it issued (`List DispatchCall`), which makes "the collaborator is
  never invoked" and "one send-many call per chunk" statable.
-/

/-- Truthiness of a JavaScript string value: `undefined` and `""` are falsy.
Models `...(s && { field: s })` object spreads and the `s` side of `s || d`. -/
def jsTruthy : Option String → Option String
  | some s => if s = "" then none else some s
  | none => none

/-- Models `s || d` for an optional string `s` and default `d`. -/
def jsOrDefault (s : Option String) (d : String) : String :=
  (jsTruthy s).getD d

/-- `NotificationPriority` from src (types/notification): 'high' | 'normal'. -/
inductive NotificationPriority where
  | high
  | normal
deriving DecidableEq, Repr

/-- `NotificationPayload` from src (types/notification). -/
structure NotificationPayload where
  title : String
  body : String
  data : Option (List (String × String)) := none
  imageUrl : Option String := none
  sound : Option String := none
  badge : Option Int := none
  clickAction : Option String := none
  priority : Option NotificationPriority := none
deriving DecidableEq, Repr

/-- `NotificationError` from src: code, message, optional token. -/
structure NotificationError where
  code : String
  message : String
  token : Option String := none
deriving DecidableEq, Repr

/-- `SendResult` from src. -/
structure SendResult where
  success : Bool
  messageId : Option String := none
  error : Option NotificationError := none
deriving DecidableEq, Repr

/-- `BatchResult` from src. -/
structure BatchResult where
  successCount : Nat
  failureCount : Nat
  results : List SendResult
deriving DecidableEq, Repr

/-- The raw error shape thrown by the Firebase collaborator (`error: any`
in the catch clauses): an object that may or may not carry `code` and
`message` string properties. -/
structure RawError where
  code : Option String := none
  message : Option String := none
deriving DecidableEq, Repr

/-- One element of `response.responses` of the collaborator's `sendEach`. -/
structure ItemResponse where
  success : Bool
  messageId : Option String := none
  error : Option RawError := none
deriving DecidableEq, Repr

/-- The `notification` block of an FCM wire message. -/
structure NotificationContent where
  title : String
  body : String
  imageUrl : Option String := none
deriving DecidableEq, Repr

/-- The `android.notification` block of an FCM wire message. -/
structure AndroidNotificationConfig where
  sound : String
  clickAction : Option String := none
deriving DecidableEq, Repr

/-- The `android` block of an FCM wire message. -/
structure AndroidConfig where
  priority : String
  android_notification : AndroidNotificationConfig
deriving DecidableEq, Repr

/-- The `apns.payload.aps` block of an FCM wire message. -/
structure ApsPayload where
  badge : Option Int := none
  sound : String
deriving DecidableEq, Repr

/-- The `apns.fcmOptions` block of an FCM wire message. -/
structure ApnsFcmOptions where
  imageUrl : Option String := none
deriving DecidableEq, Repr

/-- The `apns` block of an FCM wire message.  `fcmOptions` is `none` when
the key is absent from the object literal (topic messages). -/
structure ApnsConfig where
  aps : ApsPayload
  fcmOptions : Option ApnsFcmOptions := none
deriving DecidableEq, Repr

/-- The recipient of an FCM wire message: a device token or a topic. -/
inductive MessageTarget where
  | token (value : String)
  | topic (value : String)
deriving DecidableEq, Repr

/-- `admin.messaging.Message` as used by this code: target plus the
optional message blocks (all optional in the provider schema; the
validation message sets only `token` and `notification`). -/
structure Message where
  target : MessageTarget
  messageContent : Option NotificationContent := none
  data : Option (List (String × String)) := none
  android : Option AndroidConfig := none
  apns : Option ApnsConfig := none
deriving DecidableEq, Repr

/-- One call issued to the dispatch collaborator, with the dry-run flag
that was passed. -/
inductive DispatchCall where
  | sendOne (message : Message) (dryRun : Bool)
  | sendMany (messages : List Message) (dryRun : Bool)
deriving DecidableEq, Repr

/-- The dispatch collaborator (`this.messaging`): `send` resolves to a
message id or throws; `sendEach` resolves to per-item responses or throws
wholesale. -/
structure Messaging where
  send : Message → Bool → Except RawError String
  sendEach : List Message → Bool → Except RawError (List ItemResponse)

/-- The orchestrator state: collaborator handle plus the configured
dry-run flag (`FCMService` constructor). -/
structure FCMService where
  messaging : Messaging
  dryRun : Bool

namespace FCMService

/-- `parseError(error, token?)`: code falls back to 'unknown', message to a
generic string, and the token is attached only when truthy
(`...(token && { token })`). -/
def parseError (error : Option RawError) (token : Option String) : NotificationError :=
  { code := jsOrDefault (error.bind RawError.code) "unknown"
  , message := jsOrDefault (error.bind RawError.message) "Unknown error occurred"
  , token := jsTruthy token }

/-- `buildMessage(token, payload)`: the device-targeted wire message. -/
def buildMessage (token : String) (payload : NotificationPayload) : Message :=
  { target := .token token
  , messageContent := some
      { title := payload.title
      , body := payload.body
      , imageUrl := jsTruthy payload.imageUrl }
  , data := payload.data
  , android := some
      { priority := if payload.priority = some .high then "high" else "normal"
      , android_notification :=
          { sound := jsOrDefault payload.sound "default"
          , clickAction := payload.clickAction } }
  , apns := some
      { aps :=
          { badge := payload.badge
          , sound := jsOrDefault payload.sound "default" }
      , fcmOptions := some { imageUrl := jsTruthy payload.imageUrl } } }

/-- `buildTopicMessage(topic, payload)`: the topic-targeted wire message. -/
def buildTopicMessage (topic : String) (payload : NotificationPayload) : Message :=
  { target := .topic topic
  , messageContent := some
      { title := payload.title
      , body := payload.body
      , imageUrl := jsTruthy payload.imageUrl }
  , data := payload.data
  , android := some
      { priority := if payload.priority = some .high then "high" else "normal"
      , android_notification :=
          { sound := jsOrDefault payload.sound "default"
          , clickAction := payload.clickAction } }
  , apns := some
      { aps :=
          { badge := payload.badge
          , sound := jsOrDefault payload.sound "default" } } }

/-- `sendToDevice(token, payload)`, also returning the trace of
collaborator calls. -/
def sendToDevice (svc : FCMService) (token : String)
    (payload : NotificationPayload) : SendResult × List DispatchCall :=
  let message := buildMessage token payload
  match svc.messaging.send message svc.dryRun with
  | .ok messageId =>
      ({ success := true, messageId := some messageId }, [.sendOne message svc.dryRun])
  | .error e =>
      ({ success := false, error := some (parseError (some e) (some token)) },
       [.sendOne message svc.dryRun])

/-- `sendToTopic(topic, payload)`: like `sendToDevice` but `parseError`
receives no token argument. -/
def sendToTopic (svc : FCMService) (topic : String)
    (payload : NotificationPayload) : SendResult × List DispatchCall :=
  let message := buildTopicMessage topic payload
  match svc.messaging.send message svc.dryRun with
  | .ok messageId =>
      ({ success := true, messageId := some messageId }, [.sendOne message svc.dryRun])
  | .error e =>
      ({ success := false, error := some (parseError (some e) none) },
       [.sendOne message svc.dryRun])

/-- The synthetic message `validateToken` sends: only `token` and a fixed
test notification. -/
def validationMessage (token : String) : Message :=
  { target := .token token
  , messageContent := some { title := "Test", body := "Test" } }

/-- The two provider codes `validateToken` treats as invalid-token. -/
def invalidTokenCodes : List String :=
  ["messaging/invalid-registration-token", "messaging/registration-token-not-registered"]

/-- `validateToken(token)`: synthetic send with the dry-run flag forced to
`true`; on a thrown error, returns `!invalidTokenCodes.includes(error?.code)`. -/
def validateToken (svc : FCMService) (token : String) : Bool × List DispatchCall :=
  let message := validationMessage token
  match svc.messaging.send message true with
  | .ok _ => (true, [.sendOne message true])
  | .error e =>
      ((match e.code with
        | some c => !(invalidTokenCodes.contains c)
        | none => true),
       [.sendOne message true])

/-- `sendBatch(tokens, payload)` (private): one `sendEach` call; on
success, per-item mapping using `tokens[index]`; on a wholesale throw,
every token maps to a failure carrying the same classified error. -/
def sendBatch (svc : FCMService) (tokens : List String)
    (payload : NotificationPayload) : List SendResult × List DispatchCall :=
  let messages := tokens.map (fun token => buildMessage token payload)
  match svc.messaging.sendEach messages svc.dryRun with
  | .ok responses =>
      (responses.enum.map (fun ir =>
        if ir.2.success then
          { success := true, messageId := ir.2.messageId }
        else
          { success := false
          , error := some (parseError ir.2.error (tokens.get? ir.1)) }),
       [.sendMany messages svc.dryRun])
  | .error e =>
      (tokens.map (fun token =>
        { success := false, error := some (parseError (some e) (some token)) }),
       [.sendMany messages svc.dryRun])

/-- The chunking of the batch loop: consecutive `slice(i, i + 500)` pieces
(`batchSize = 500`). -/
def chunk500 (tokens : List String) : List (List String) :=
  if tokens = [] then []
  else tokens.take 500 :: chunk500 (tokens.drop 500)
termination_by tokens.length
decreasing_by
  simp only [List.length_drop]
  have : 0 < tokens.length := List.length_pos.mpr (by assumption)
  omega

/-- `sendToMultipleDevices(tokens, payload)`: empty-list short circuit,
otherwise chunked `sendBatch` calls, concatenated results, counts computed
from the merged sequence. -/
def sendToMultipleDevices (svc : FCMService) (tokens : List String)
    (payload : NotificationPayload) : BatchResult × List DispatchCall :=
  if tokens = [] then
    ({ successCount := 0, failureCount := 0, results := [] }, [])
  else
    let pieces := (chunk500 tokens).map (fun chunk => svc.sendBatch chunk payload)
    let results := (pieces.map Prod.fst).flatten
    let trace := (pieces.map Prod.snd).flatten
    let successCount := (results.filter (fun r => r.success)).length
    ({ successCount := successCount
     , failureCount := results.length - successCount
     , results := results },
     trace)

end FCMService

/-- The event type of an `OrderNotification`:
'order.placed' | 'order.delivered' | 'order.canceled'. -/
inductive OrderEventType where
  | placed
  | delivered
  | canceled
deriving DecidableEq, Repr

/-- The wire string of an `OrderNotification` type. -/
def OrderEventType.toText : OrderEventType → String
  | .placed => "order.placed"
  | .delivered => "order.delivered"
  | .canceled => "order.canceled"

/-- `OrderNotification` from src (types/notification). -/
structure OrderNotification where
  type : OrderEventType
  orderId : String
  orderNumber : Option String := none
deriving DecidableEq, Repr

/-- `formatOrderNotification(data)` from src/utils/notification-formatter.ts:
the body's order display falls back to `#` + orderId when `orderNumber` is
falsy (absent or empty), and the data map spreads `orderNumber` only when
truthy. -/
def formatOrderNotification (data : OrderNotification) : NotificationPayload :=
  let orderDisplay :=
    match data.orderNumber with
    | some s => if s = "" then "#" ++ data.orderId else s
    | none => "#" ++ data.orderId
  let title :=
    match data.type with
    | .placed => "✅ Order Confirmed"
    | .delivered => "🎉 Order Delivered"
    | .canceled => "❌ Order Canceled"
  let body :=
    match data.type with
    | .placed => "Your order " ++ orderDisplay ++ " has been confirmed!"
    | .delivered => "Your order " ++ orderDisplay ++ " has been delivered!"
    | .canceled => "Your order " ++ orderDisplay ++ " has been canceled."
  { title := title
  , body := body
  , data := some
      ([("type", data.type.toText), ("orderId", data.orderId)] ++
        (match data.orderNumber with
         | some s => if s = "" then [] else [("orderNumber", s)]
         | none => []))
  , clickAction := some ("/orders/" ++ data.orderId)
  , priority := some (if data.type = .placed then .high else .normal) }

/-- The trailing text of the order body for each event type (everything
after the order display). -/
def orderBodyTail : OrderEventType → String
  | .placed => " has been confirmed!"
  | .delivered => " has been delivered!"
  | .canceled => " has been canceled."

/-- The collaborator contract of `sendEach` (spec §6): the response
sequence is aligned to the input order, one outcome per input message. -/
def Messaging.aligned (m : Messaging) : Prop :=
  ∀ msgs dryRun responses, m.sendEach msgs dryRun = .ok responses →
    responses.length = msgs.length

/-- The collaborator contract of `sendEach` item responses: a successful
item carries a message id. -/
def Messaging.wellFormed (m : Messaging) : Prop :=
  ∀ msgs dryRun responses, m.sendEach msgs dryRun = .ok responses →
    ∀ r ∈ responses, r.success = true → r.messageId.isSome = true

/-- The SendResult invariant: exactly one of messageId/error is populated,
aligned with the success flag. -/
def SendResult.exclusive (r : SendResult) : Prop :=
  (r.messageId.isSome = true ↔ r.success = true) ∧
  (r.error.isSome = true ↔ r.success = false)

/-- A minimal concrete payload. -/
def payload0 : NotificationPayload := { title := "T", body := "B" }

/-- A concrete payload carrying a badge and a click action. -/
def payloadWithBadge : NotificationPayload :=
  { title := "Order", body := "Body", badge := some 1, clickAction := some "/orders/1" }

/-- A collaborator that always succeeds, one well-formed response per
message. -/
def okMessaging : Messaging :=
  { send := fun _ _ => .ok "projects/demo/messages/1"
  , sendEach := fun msgs _ =>
      .ok (msgs.map fun _ => { success := true, messageId := some "id-1" }) }

/-- A service over the always-succeeding collaborator. -/
def okSvc : FCMService := { messaging := okMessaging, dryRun := false }

/-- A concrete raw error a collaborator might throw. -/
def failError : RawError := { code := some "messaging/internal-error", message := some "boom" }

/-- A collaborator whose every call throws `failError` wholesale. -/
def failMessaging : Messaging :=
  { send := fun _ _ => .error failError
  , sendEach := fun _ _ => .error failError }

/-- A service over the always-throwing collaborator. -/
def failSvc : FCMService := { messaging := failMessaging, dryRun := false }

namespace FCMService

/-- `chunk500 []` is empty. -/
theorem chunk500_nil : chunk500 [] = [] := by
  rw [chunk500]
  simp

/-- Unfolding of `chunk500` on a non-empty list. -/
theorem chunk500_ne (l : List String) (h : l ≠ []) :
    chunk500 l = l.take 500 :: chunk500 (l.drop 500) := by
  rw [chunk500]
  simp [h]

/-- Concatenating the chunks gives back the original list. -/
theorem chunk500_flatten (l : List String) : (chunk500 l).flatten = l := by
  induction l using chunk500.induct with
  | case1 => rw [chunk500_nil]; rfl
  | case2 l h ih => rw [chunk500_ne l h, List.flatten_cons, ih, List.take_append_drop]

/-- The number of chunks is `⌈length / 500⌉`. -/
theorem chunk500_length (l : List String) :
    (chunk500 l).length = (l.length + 499) / 500 := by
  induction l using chunk500.induct with
  | case1 => rw [chunk500_nil]; rfl
  | case2 l h ih =>
      rw [chunk500_ne l h]
      have hp : 0 < l.length := List.length_pos.mpr h
      simp only [List.length_cons, ih, List.length_drop]
      omega

/-- Every chunk is non-empty and holds at most 500 tokens. -/
theorem chunk500_mem (l c : List String) :
    c ∈ chunk500 l → c.length ≤ 500 ∧ c ≠ [] := by
  induction l using chunk500.induct with
  | case1 => rw [chunk500_nil]; intro h; cases h
  | case2 l hne ih =>
      rw [chunk500_ne l hne]
      intro hm
      rcases List.mem_cons.mp hm with h | h
      · subst h
        refine ⟨by simp [List.length_take], by simp [List.take_eq_nil_iff, hne]⟩
      · exact ih h

end FCMService

/-- Flattening a list of singletons is a plain map. -/
theorem flatten_map_singleton {α β : Type} (L : List α) (g : α → β) :
    (L.map (fun c => [g c])).flatten = L.map g := by
  induction L with
  | nil => rfl
  | cons a L ih => simp [ih]

/-- `jsOrDefault` never yields the empty string when the default is
non-empty. -/
theorem jsOrDefault_ne_empty (o : Option String) (d : String) (hd : d ≠ "") :
    jsOrDefault o d ≠ "" := by
  cases o with
  | none => exact hd
  | some s =>
      by_cases hs : s = "" <;> simp [jsOrDefault, jsTruthy, hs, hd]

/-- `jsOrDefault` falls back to the default on a falsy input. -/
theorem jsOrDefault_falsy (o : Option String) (d : String)
    (h : o = none ∨ o = some "") : jsOrDefault o d = d := by
  rcases h with h | h <;> subst h <;> simp [jsOrDefault, jsTruthy]

/-- C7: error classification is total: for every error-shaped input
(including a missing object, or missing/empty code and message fields),
`parseError` yields a `NotificationError` with non-empty code and message,
falling back to the sentinel 'unknown' code and the generic message. -/
theorem parseError_total (e : Option RawError) (tok : Option String) :
    (FCMService.parseError e tok).code ≠ "" ∧
    (FCMService.parseError e tok).message ≠ "" ∧
    (e.bind RawError.code = none ∨ e.bind RawError.code = some "" →
      (FCMService.parseError e tok).code = "unknown") ∧
    (e.bind RawError.message = none ∨ e.bind RawError.message = some "" →
      (FCMService.parseError e tok).message = "Unknown error occurred") := by
  refine ⟨jsOrDefault_ne_empty _ _ (by simp), jsOrDefault_ne_empty _ _ (by simp),
    fun h => jsOrDefault_falsy _ _ h, fun h => jsOrDefault_falsy _ _ h⟩

/-- C7 witness: the fallbacks at a concrete degenerate error shape. -/
theorem parseError_total_witness :
    (FCMService.parseError none none).code = "unknown" ∧
    (FCMService.parseError (some { code := some "", message := none }) none).message =
      "Unknown error occurred" :=
  ⟨(parseError_total none none).2.2.1 (Or.inl rfl),
   (parseError_total (some { code := some "", message := none }) none).2.2.2 (Or.inl rfl)⟩

/-- C4: sending to an empty token list returns the zero batch result and
issues no collaborator call at all. -/
theorem sendMany_empty_short_circuit (svc : FCMService) (payload : NotificationPayload) :
    svc.sendToMultipleDevices [] payload =
      ({ successCount := 0, failureCount := 0, results := [] }, []) := rfl

/-- C5 counterexample: the topic message built for topic "news" carries
both the badge assignment and the clickAction routing, contradicting the
claim that topic messages omit them. -/
theorem buildTopicMessage_carries_badge_and_clickAction :
    ((FCMService.buildTopicMessage "news" payloadWithBadge).apns.map
        fun a => a.aps.badge) = some (some 1) ∧
    ((FCMService.buildTopicMessage "news" payloadWithBadge).android.map
        fun a => a.android_notification.clickAction) = some (some "/orders/1") :=
  ⟨rfl, rfl⟩

/-- C5 amended: the topic message forwards badge and clickAction exactly as
the device message does; besides the target, the only difference is that
the topic message omits the `apns.fcmOptions` image-options block present
in device messages. -/
theorem buildTopicMessage_differs_only_in_fcmOptions
    (topic token : String) (p : NotificationPayload) :
    (FCMService.buildTopicMessage topic p).messageContent =
      (FCMService.buildMessage token p).messageContent ∧
    (FCMService.buildTopicMessage topic p).data = (FCMService.buildMessage token p).data ∧
    (FCMService.buildTopicMessage topic p).android = (FCMService.buildMessage token p).android ∧
    (FCMService.buildTopicMessage topic p).apns =
      some { aps := { badge := p.badge, sound := jsOrDefault p.sound "default" }
           , fcmOptions := none } ∧
    (FCMService.buildMessage token p).apns =
      some { aps := { badge := p.badge, sound := jsOrDefault p.sound "default" }
           , fcmOptions := some { imageUrl := jsTruthy p.imageUrl } } :=
  ⟨rfl, rfl, rfl, rfl, rfl⟩

/-- C10: an empty-string `orderNumber` is treated exactly like an absent
one: the payload equals the no-orderNumber payload, the body shows
`#` + orderId, and the data map has no `orderNumber` key. -/
theorem formatOrder_empty_orderNumber (t : OrderEventType) (oid : String) :
    formatOrderNotification { type := t, orderId := oid, orderNumber := some "" } =
      formatOrderNotification { type := t, orderId := oid, orderNumber := none } ∧
    (formatOrderNotification { type := t, orderId := oid, orderNumber := some "" }).body =
      "Your order " ++ ("#" ++ oid) ++ orderBodyTail t ∧
    (formatOrderNotification { type := t, orderId := oid, orderNumber := some "" }).data =
      some [("type", t.toText), ("orderId", oid)] := by
  cases t <;> exact ⟨rfl, rfl, rfl⟩

/-- C6: `validateToken` always issues exactly one synthetic send with the
dry-run flag forced on (independently of the configured flag), and returns
`false` exactly when that send fails with one of the two designated
invalid-token codes. -/
theorem validateToken_spec (svc : FCMService) (token : String) :
    (svc.validateToken token).2 =
      [DispatchCall.sendOne (FCMService.validationMessage token) true] ∧
    (∀ b : Bool,
      (({ messaging := svc.messaging, dryRun := b } : FCMService).validateToken token) =
        svc.validateToken token) ∧
    ((svc.validateToken token).1 = false ↔
      ∃ e, svc.messaging.send (FCMService.validationMessage token) true = .error e ∧
        (e.code = some "messaging/invalid-registration-token" ∨
         e.code = some "messaging/registration-token-not-registered")) := by
  refine ⟨?_, fun b => rfl, ?_⟩
  · simp only [FCMService.validateToken]
    cases svc.messaging.send (FCMService.validationMessage token) true <;> rfl
  · simp only [FCMService.validateToken]
    cases h : svc.messaging.send (FCMService.validationMessage token) true with
    | ok v => simp [h]
    | error e =>
        cases hc : e.code with
        | none => simp [h, hc]
        | some c =>
            simp [h, hc, FCMService.invalidTokenCodes]
            tauto

/-- The always-succeeding collaborator satisfies the alignment contract. -/
theorem okMessaging_aligned : okMessaging.aligned := by
  intro msgs dr responses h
  simp only [okMessaging, Except.ok.injEq] at h
  subst h
  simp

/-- The always-succeeding collaborator satisfies the well-formedness
contract. -/
theorem okMessaging_wellFormed : okMessaging.wellFormed := by
  intro msgs dr responses h r hr hs
  simp only [okMessaging, Except.ok.injEq] at h
  subst h
  rcases List.mem_map.mp hr with ⟨m, hm, rfl⟩
  rfl

/-- Under the alignment contract, `sendBatch` yields one result per token. -/
theorem sendBatch_length (svc : FCMService) (c : List String) (p : NotificationPayload)
    (hA : svc.messaging.aligned) : (svc.sendBatch c p).1.length = c.length := by
  simp only [FCMService.sendBatch]
  cases h : svc.messaging.sendEach (c.map fun token => FCMService.buildMessage token p)
      svc.dryRun with
  | ok responses =>
      simp only [List.length_map, List.enum_length]
      rw [hA _ _ _ h, List.length_map]
  | error e => simp

/-- `sendBatch` always issues exactly one send-many collaborator call. -/
theorem sendBatch_trace (svc : FCMService) (c : List String) (p : NotificationPayload) :
    (svc.sendBatch c p).2 =
      [DispatchCall.sendMany (c.map fun token => FCMService.buildMessage token p) svc.dryRun] := by
  simp only [FCMService.sendBatch]
  cases svc.messaging.sendEach (c.map fun token => FCMService.buildMessage token p)
      svc.dryRun <;> rfl

/-- On a non-empty token list, the results of `sendToMultipleDevices` are
the concatenation of the per-chunk `sendBatch` results. -/
theorem sendMany_results_eq (svc : FCMService) (tokens : List String)
    (p : NotificationPayload) (h : tokens ≠ []) :
    (svc.sendToMultipleDevices tokens p).1.results =
      ((FCMService.chunk500 tokens).map fun c => (svc.sendBatch c p).1).flatten := by
  simp only [FCMService.sendToMultipleDevices, h, ite_false, List.map_map]
  rfl

/-- On a non-empty token list, the trace of `sendToMultipleDevices` is the
concatenation of the per-chunk `sendBatch` traces. -/
theorem sendMany_trace_eq (svc : FCMService) (tokens : List String)
    (p : NotificationPayload) (h : tokens ≠ []) :
    (svc.sendToMultipleDevices tokens p).2 =
      ((FCMService.chunk500 tokens).map fun c => (svc.sendBatch c p).2).flatten := by
  simp only [FCMService.sendToMultipleDevices, h, ite_false, List.map_map]
  rfl

/-- `successCount` is computed from the merged result sequence. -/
theorem sendMany_successCount_eq (svc : FCMService) (tokens : List String)
    (p : NotificationPayload) :
    (svc.sendToMultipleDevices tokens p).1.successCount =
      ((svc.sendToMultipleDevices tokens p).1.results.filter fun r => r.success).length := by
  by_cases h : tokens = []
  · subst h; rfl
  · simp only [FCMService.sendToMultipleDevices, h, ite_false]

/-- `failureCount` is the residual of the merged result sequence. -/
theorem sendMany_failureCount_eq (svc : FCMService) (tokens : List String)
    (p : NotificationPayload) :
    (svc.sendToMultipleDevices tokens p).1.failureCount =
      (svc.sendToMultipleDevices tokens p).1.results.length -
        (svc.sendToMultipleDevices tokens p).1.successCount := by
  by_cases h : tokens = []
  · subst h; rfl
  · simp only [FCMService.sendToMultipleDevices, h, ite_false]

/-- C1: under the collaborator alignment contract, `sendToMultipleDevices`
returns exactly one result per input token, `successCount` is the number
of successful results, and `successCount + failureCount` equals the input
length. -/
theorem sendMany_counts (svc : FCMService) (tokens : List String) (p : NotificationPayload)
    (hA : svc.messaging.aligned) :
    (svc.sendToMultipleDevices tokens p).1.results.length = tokens.length ∧
    (svc.sendToMultipleDevices tokens p).1.successCount +
        (svc.sendToMultipleDevices tokens p).1.failureCount = tokens.length ∧
    (svc.sendToMultipleDevices tokens p).1.successCount =
      ((svc.sendToMultipleDevices tokens p).1.results.filter fun r => r.success).length := by
  have hlen : (svc.sendToMultipleDevices tokens p).1.results.length = tokens.length := by
    by_cases h : tokens = []
    · subst h; rfl
    · rw [sendMany_results_eq svc tokens p h, List.length_flatten, List.map_map]
      have hmap : (FCMService.chunk500 tokens).map (List.length ∘ fun c => (svc.sendBatch c p).1) =
          (FCMService.chunk500 tokens).map List.length :=
        List.map_congr_left fun c _ => sendBatch_length svc c p hA
      rw [hmap, ← List.length_flatten, FCMService.chunk500_flatten]
  refine ⟨hlen, ?_, sendMany_successCount_eq svc tokens p⟩
  have hsc := sendMany_successCount_eq svc tokens p
  have hfc := sendMany_failureCount_eq svc tokens p
  have hle : ((svc.sendToMultipleDevices tokens p).1.results.filter fun r => r.success).length ≤
      (svc.sendToMultipleDevices tokens p).1.results.length := List.length_filter_le _ _
  omega

/-- C1 witness: counts at a concrete two-token batch over the
always-succeeding collaborator. -/
theorem sendMany_counts_witness :
    (okSvc.sendToMultipleDevices ["a", "b"] payload0).1.results.length = 2 ∧
    (okSvc.sendToMultipleDevices ["a", "b"] payload0).1.successCount +
      (okSvc.sendToMultipleDevices ["a", "b"] payload0).1.failureCount = 2 :=
  ⟨(sendMany_counts okSvc ["a", "b"] payload0 okMessaging_aligned).1,
   (sendMany_counts okSvc ["a", "b"] payload0 okMessaging_aligned).2.1⟩

/-- C2: on a list of more than 500 tokens, the batch loop forms
`⌈length/500⌉` consecutive chunks of at most 500 tokens whose
concatenation is the original list, issues exactly one send-many
collaborator call per chunk, and concatenates the per-chunk results in
original order. -/
theorem sendMany_chunking (svc : FCMService) (tokens : List String) (p : NotificationPayload)
    (hlen : tokens.length > 500) :
    (FCMService.chunk500 tokens).length = (tokens.length + 499) / 500 ∧
    (∀ c ∈ FCMService.chunk500 tokens, c.length ≤ 500) ∧
    (FCMService.chunk500 tokens).flatten = tokens ∧
    (svc.sendToMultipleDevices tokens p).2 =
      (FCMService.chunk500 tokens).map
        (fun c => DispatchCall.sendMany
          (c.map fun token => FCMService.buildMessage token p) svc.dryRun) ∧
    (svc.sendToMultipleDevices tokens p).1.results =
      ((FCMService.chunk500 tokens).map fun c => (svc.sendBatch c p).1).flatten := by
  have hne : tokens ≠ [] := by
    intro h
    rw [h] at hlen
    simp at hlen
  refine ⟨FCMService.chunk500_length tokens,
    fun c hc => (FCMService.chunk500_mem tokens c hc).1,
    FCMService.chunk500_flatten tokens, ?_, sendMany_results_eq svc tokens p hne⟩
  rw [sendMany_trace_eq svc tokens p hne]
  have hmap : (FCMService.chunk500 tokens).map (fun c => (svc.sendBatch c p).2) =
      (FCMService.chunk500 tokens).map (fun c =>
        [DispatchCall.sendMany (c.map fun token => FCMService.buildMessage token p) svc.dryRun]) :=
    List.map_congr_left fun c _ => sendBatch_trace svc c p
  rw [hmap, flatten_map_singleton]

/-- C2 witness: a 501-token list yields two chunks. -/
theorem sendMany_chunking_witness :
    (List.replicate 501 "a").length > 500 ∧
    (FCMService.chunk500 (List.replicate 501 "a")).length = 2 := by
  have hgt : (List.replicate 501 "a").length > 500 := by
    rw [List.length_replicate]
    omega
  have h := (sendMany_chunking okSvc (List.replicate 501 "a") payload0 hgt).1
  rw [List.length_replicate] at h
  exact ⟨hgt, by omega⟩

/-- C3: when the collaborator throws wholesale on a chunk dispatched by
the batch loop, every position of that chunk resolves to a failure
carrying the same classified error code, no token of the chunk is
dropped, and the overall results remain the concatenation of the
independent per-chunk results. -/
theorem sendBatch_wholesale_failure
    (svc : FCMService) (tokens : List String) (p : NotificationPayload)
    (c : List String) (e : RawError)
    (_hc : c ∈ FCMService.chunk500 tokens)
    (hf : svc.messaging.sendEach (c.map fun token => FCMService.buildMessage token p)
        svc.dryRun = .error e) :
    (svc.sendBatch c p).1 =
      c.map (fun token =>
        { success := false
        , error := some (FCMService.parseError (some e) (some token)) }) ∧
    (∀ r ∈ (svc.sendBatch c p).1, r.success = false ∧
      ∃ ne, r.error = some ne ∧ ne.code = (FCMService.parseError (some e) none).code) ∧
    (svc.sendBatch c p).1.length = c.length ∧
    (tokens ≠ [] →
      (svc.sendToMultipleDevices tokens p).1.results =
        ((FCMService.chunk500 tokens).map fun c2 => (svc.sendBatch c2 p).1).flatten) := by
  have h1 : (svc.sendBatch c p).1 =
      c.map (fun token =>
        { success := false
        , error := some (FCMService.parseError (some e) (some token)) }) := by
    simp only [FCMService.sendBatch, hf]
  refine ⟨h1, ?_, by rw [h1, List.length_map],
    fun hne => sendMany_results_eq svc tokens p hne⟩
  intro r hr
  rw [h1] at hr
  rcases List.mem_map.mp hr with ⟨t, ht, rfl⟩
  exact ⟨rfl, ⟨_, rfl, rfl⟩⟩

/-- C3 witness: a one-chunk list over the always-throwing collaborator. -/
theorem sendBatch_wholesale_failure_witness :
    ["a"] ∈ FCMService.chunk500 ["a"] ∧
    (failSvc.sendBatch ["a"] payload0).1 =
      [{ success := false
       , error := some (FCMService.parseError (some failError) (some "a")) }] := by
  have hchunk : FCMService.chunk500 ["a"] = [["a"]] := by
    rw [FCMService.chunk500_ne _ (by simp)]
    simp [FCMService.chunk500_nil]
  have hc : ["a"] ∈ FCMService.chunk500 ["a"] := by rw [hchunk]; simp
  have h := sendBatch_wholesale_failure failSvc ["a"] payload0 ["a"] failError hc rfl
  exact ⟨hc, by rw [h.1]; rfl⟩

/-- C8 counterexample: a failing device send whose token is the empty
string produces an error with no token field, although the call context is
device-targeted and has an originating token. -/
theorem sendToDevice_empty_token_cex :
    (failSvc.sendToDevice "" payload0).1.success = false ∧
    ((failSvc.sendToDevice "" payload0).1.error.map NotificationError.token) = some none :=
  ⟨rfl, rfl⟩

/-- C8 amended: topic-level errors never carry a token; device-targeted
failures attach the originating token whenever it is non-empty (the
classifier drops a falsy, i.e. empty, token). -/
theorem error_token_presence
    (svc : FCMService) (p : NotificationPayload) (topic tok : String) (e : RawError) :
    (svc.messaging.send (FCMService.buildTopicMessage topic p) svc.dryRun = .error e →
      (svc.sendToTopic topic p).1.error = some (FCMService.parseError (some e) none) ∧
      (FCMService.parseError (some e) none).token = none) ∧
    (tok ≠ "" → svc.messaging.send (FCMService.buildMessage tok p) svc.dryRun = .error e →
      (svc.sendToDevice tok p).1.error = some (FCMService.parseError (some e) (some tok)) ∧
      (FCMService.parseError (some e) (some tok)).token = some tok) ∧
    (∀ t : String, t ≠ "" → ∀ er : Option RawError,
      (FCMService.parseError er (some t)).token = some t) := by
  refine ⟨fun hf => ?_, fun ht hf => ?_, fun t ht er => ?_⟩
  · have herr : (svc.sendToTopic topic p).1.error =
        some (FCMService.parseError (some e) none) := by
      simp [FCMService.sendToTopic, hf]
    exact ⟨herr, rfl⟩
  · have herr : (svc.sendToDevice tok p).1.error =
        some (FCMService.parseError (some e) (some tok)) := by
      simp [FCMService.sendToDevice, hf]
    exact ⟨herr, by simp [FCMService.parseError, jsTruthy, ht]⟩
  · simp [FCMService.parseError, jsTruthy, ht]

/-- C8 witness: token presence at concrete failing sends. -/
theorem error_token_presence_witness :
    (failSvc.sendToTopic "news" payload0).1.error =
      some (FCMService.parseError (some failError) none) ∧
    (FCMService.parseError (some failError) none).token = none ∧
    (FCMService.parseError (some failError) (some "a")).token = some "a" :=
  ⟨((error_token_presence failSvc payload0 "news" "a" failError).1 rfl).1,
   ((error_token_presence failSvc payload0 "news" "a" failError).1 rfl).2,
   ((error_token_presence failSvc payload0 "news" "a" failError).2.2 "a" (by decide)
     (some failError))⟩

/-- Under the collaborator well-formedness contract, every `sendBatch`
result populates exactly one of messageId/error. -/
theorem sendBatch_exclusive (svc : FCMService) (c : List String) (p : NotificationPayload)
    (hW : svc.messaging.wellFormed) :
    ∀ r ∈ (svc.sendBatch c p).1, r.exclusive := by
  intro r hr
  simp only [FCMService.sendBatch] at hr
  revert hr
  cases h : svc.messaging.sendEach (c.map fun token => FCMService.buildMessage token p)
      svc.dryRun with
  | ok responses =>
      intro hr
      rcases List.mem_map.mp hr with ⟨ir, hmem, rfl⟩
      have hrmem : ir.2 ∈ responses :=
        List.getElem?_mem (List.mem_enum_iff_getElem?.mp hmem)
      cases hs : ir.2.success with
      | true =>
          have hid := hW _ _ _ h ir.2 hrmem hs
          simp [hs, SendResult.exclusive, hid]
      | false => simp [hs, SendResult.exclusive]
  | error e =>
      intro hr
      rcases List.mem_map.mp hr with ⟨t, ht, rfl⟩
      simp [SendResult.exclusive]

/-- C9: under the collaborator well-formedness contract, every SendResult
produced by `sendToDevice`, `sendToTopic`, or `sendToMultipleDevices`
populates exactly one of messageId and error: messageId present iff
success, error present iff failure. -/
theorem send_results_exclusive (svc : FCMService) (token topic : String)
    (tokens : List String) (p : NotificationPayload)
    (hW : svc.messaging.wellFormed) :
    (svc.sendToDevice token p).1.exclusive ∧
    (svc.sendToTopic topic p).1.exclusive ∧
    ∀ r ∈ (svc.sendToMultipleDevices tokens p).1.results, r.exclusive := by
  refine ⟨?_, ?_, ?_⟩
  · simp only [FCMService.sendToDevice]
    cases svc.messaging.send (FCMService.buildMessage token p) svc.dryRun <;>
      simp [SendResult.exclusive]
  · simp only [FCMService.sendToTopic]
    cases svc.messaging.send (FCMService.buildTopicMessage topic p) svc.dryRun <;>
      simp [SendResult.exclusive]
  · intro r hr
    by_cases h : tokens = []
    · subst h
      simp only [FCMService.sendToMultipleDevices] at hr
      simp at hr
    · rw [sendMany_results_eq svc tokens p h] at hr
      rcases List.mem_flatten.mp hr with ⟨piece, hp, hrp⟩
      rcases List.mem_map.mp hp with ⟨c, hcm, rfl⟩
      exact sendBatch_exclusive svc c p hW r hrp

/-- C9 witness: the invariant at concrete sends over the always-succeeding
collaborator. -/
theorem send_results_exclusive_witness :
    (okSvc.sendToDevice "t" payload0).1.exclusive ∧
    (okSvc.sendToTopic "news" payload0).1.exclusive :=
  ⟨(send_results_exclusive okSvc "t" "news" ["a"] payload0 okMessaging_wellFormed).1,
   (send_results_exclusive okSvc "t" "news" ["a"] payload0 okMessaging_wellFormed).2.1⟩
